import Mathlib

/-!
Shallow embedding of the request-gating middleware of the Leave_Request_System
repository (src/helper/MiddlewareFactory.ts), together with a model of the
rate-limit registry provided by the express-rate-limit dependency (whose
internals are not part of the repository; modelled from the specification,
§4.3/§4.4).  Machine state (the per-key window table) is passed explicitly;
the response/next()/throw behaviour of each middleware is reified as an
outcome value.
-/

set_option maxRecDepth 100000

namespace LRS

/-- Admission decision of a rate-limit check (spec: Admit / Reject). -/
inductive Decision
  | allow
  | reject
deriving DecidableEq

/-- Modelled from the spec: a WindowPolicy of the RateLimiterRegistry (§4.3);
the registry itself is implemented by the express-rate-limit dependency and is
not under src/.  `windowMs` and `max` mirror the configuration fields passed
to `rateLimit` in MiddlewareFactory.ts. -/
structure WindowPolicy where
  windowMs : Nat
  max : Nat
deriving DecidableEq

/-- A per-key counting window: the count of attempted requests in the current
window and the window-start timestamp. -/
structure RateWindow where
  count : Nat
  windowStart : Nat
deriving DecidableEq

/-- The per-policy table of rate windows, one per key. -/
def Store : Type := String → Option RateWindow

/-- The freshly initialised (empty) counter store of a new rateLimit instance. -/
def emptyStore : Store := fun _ => none

/-- Point update of a store. -/
def setWindow (s : Store) (key : String) (w : RateWindow) : Store :=
  fun k => if k = key then some w else s k

/-- Modelled from the spec: RateLimiterRegistry.check (§4.3).  If no window
exists for the key or the existing window has expired, a new window is opened
with count 1 and Admit is returned; otherwise the count is incremented and the
decision is Reject exactly when the post-increment count exceeds the policy
maximum (the stored count reflects the attempted request either way). -/
def check (p : WindowPolicy) (now : Nat) (key : String) (s : Store) :
    Decision × Store :=
  match s key with
  | none => (Decision.allow, setWindow s key ⟨1, now⟩)
  | some w =>
    if w.windowStart + p.windowMs ≤ now then
      (Decision.allow, setWindow s key ⟨1, now⟩)
    else
      ((if p.max < w.count + 1 then Decision.reject else Decision.allow),
        setWindow s key ⟨w.count + 1, w.windowStart⟩)

/-- Sequential application of `check` to a list of (key, time) requests
against one persistent store, returning the decisions in order and the final
store. -/
def runChecks (p : WindowPolicy) : Store → List (String × Nat) → List Decision × Store
  | s, [] => ([], s)
  | s, (key, t) :: rest =>
    ((check p t key s).1 :: (runChecks p (check p t key s).2 rest).1,
      (runChecks p (check p t key s).2 rest).2)

/-- Configuration of loginLimiter (MiddlewareFactory.ts lines 10-18):
windowMs 15*60*1000, max 100. -/
def loginLimiterPolicy : WindowPolicy := ⟨15 * 60 * 1000, 100⟩

/-- Message configured on loginLimiter (line 14). -/
def loginLimiterMessage : String := "Too many requests - try again later"

/-- Configuration of jwtRateLimiter (MiddlewareFactory.ts lines 21-30):
windowMs 15*60*1000, max 20, keyed by the user email. -/
def jwtRateLimiterPolicy : WindowPolicy := ⟨15 * 60 * 1000, 20⟩

/-- Message configured on jwtRateLimiter (line 25). -/
def jwtRateLimiterMessage : String := "Too many requests - try again later"

/-- Modelled from the spec: on Reject the rate-limit gate responds 429 with
the configured message and halts (§4.4); on Admit it passes through (none). -/
def limiterOutcome (message : String) : Decision → Option (Nat × String)
  | Decision.allow => none
  | Decision.reject => some (429, message)

/-- The part of a request that jwtRateLimitMiddleware reads: the email
attached by authenticateToken (req.signedInUser?.email) and the current time
(used by the limiter it constructs). -/
structure JwtGateRequest where
  signedInUserEmail : Option String
  now : Nat

/-- Observable outcome of one middleware invocation: pass control on, or send
a response and halt. -/
inductive GateOutcome
  | next
  | responded (status : Nat) (msg : String)
deriving DecidableEq

/-- One invocation of the handler returned by jwtRateLimitMiddleware
(MiddlewareFactory.ts lines 33-48).  When the request carries a signedInUser
email, line 38 evaluates MiddlewareFactory.jwtRateLimiter(email), which calls
rateLimit({...}) and therefore builds a NEW limiter instance whose counter
store is freshly initialised (`emptyStore`), and applies it to the request;
no store survives the invocation.  When the email is absent it sends 400
"Missing email in token." (lines 40-45). -/
def jwtRateLimitMiddlewareStep (req : JwtGateRequest) : GateOutcome :=
  match req.signedInUserEmail with
  | some email =>
    match (check jwtRateLimiterPolicy req.now email emptyStore).1 with
    | Decision.allow => GateOutcome.next
    | Decision.reject => GateOutcome.responded 429 jwtRateLimiterMessage
  | none => GateOutcome.responded 400 "Missing email in token."

/-- A sequence of invocations of the jwtRateLimitMiddleware handler.  Each
invocation constructs its own limiter (see `jwtRateLimitMiddlewareStep`), so
the invocations share no state. -/
def jwtRateLimitMiddlewareRun (reqs : List JwtGateRequest) : List GateOutcome :=
  reqs.map jwtRateLimitMiddlewareStep

/-- The nested claims object of a decoded JWT payload (payload.token), with
each field possibly absent (`none` models a missing / undefined field). -/
structure TokenClaims where
  uid : Option String
  email : Option String
  role : Option String
deriving DecidableEq

/-- A decoded JWT payload object; `token` is the nested claims object
destructured at MiddlewareFactory.ts lines 88-90 (`none` models a payload
without such a field, whose destructuring raises and is caught). -/
structure DecodedPayload where
  token : Option TokenClaims
deriving DecidableEq

/-- The identity attached to the request (req.signedInUser, line 94); the
spec names the `uid` field `subjectId`. -/
structure SignedInUser where
  uid : String
  email : String
  role : String
deriving DecidableEq

/-- The part of a request that authenticateToken reads:
req.headers.authorization. -/
structure AuthRequest where
  authorization : Option String

/-- Observable outcome of authenticateToken: attach the identity and call
next(); send a response and stop; send a response and THEN raise an uncaught
fault (the missing-header fall-through); or raise an uncaught fault without
responding (the missing-secret throw). -/
inductive AuthOutcome
  | nextWith (user : SignedInUser)
  | responded (status : Nat) (msg : String)
  | respondedThenThrew (status : Nat) (msg : String)
  | threw (msg : String)
deriving DecidableEq

/-- Split a character list at every space, keeping empty segments, exactly as
JavaScript's String.prototype.split(" ") does. -/
def splitChars : List Char → List (List Char)
  | [] => [[]]
  | c :: cs =>
    let rest := splitChars cs
    if c = ' ' then [] :: rest
    else
      match rest with
      | [] => [[c]]
      | w :: ws => (c :: w) :: ws

/-- JavaScript `s.split(" ")` on a Lean string. -/
def splitOnSpace (s : String) : List String :=
  (splitChars s.data).map (fun cs => String.mk cs)

/-- Status code of a sent response, if the outcome is a clean response. -/
def respStatus : AuthOutcome → Option Nat
  | AuthOutcome.responded st _ => some st
  | _ => none

/-- MiddlewareFactory.authenticateToken (MiddlewareFactory.ts lines 58-105).
`verify tok secret` is the outcome of jwt.verify's callback: `none` models
(err or no payload or payload not an object), `some payload` a decoded object
payload.  Branches, in source order:
* lines 60-67: if the authorization header is absent, sendErrorResponse(401,
  "Not authorised - Token not found") is called but the function does NOT
  return, so control falls through to line 69 where
  `authHeader.split(" ")[1]` dereferences undefined and throws a TypeError —
  modelled as `respondedThenThrew`;
* line 69: tokenReceived = authHeader.split(" ")[1] (index 1 may be absent);
* lines 72-75: if process.env.JWT_SECRET is undefined, throw new Error
  ("Token secret not found/defined") — an uncaught fault, modelled `threw`;
* lines 77-85: verification failure responds 401
  "Not authorised - Token is invalid";
* lines 87-103: destructure payload.token into {uid, email, role}; if the
  nested object is missing the destructuring throws and the catch responds
  401; if any of email, role, uid is falsy (absent or the empty string) an
  Error is thrown and the catch responds 401; otherwise req.signedInUser is
  set and next() is called. -/
def authenticateToken (verify : Option String → String → Option DecodedPayload)
    (jwtSecret : Option String) (req : AuthRequest) : AuthOutcome :=
  match req.authorization with
  | none => AuthOutcome.respondedThenThrew 401 "Not authorised - Token not found"
  | some authHeader =>
    let tokenReceived := (splitOnSpace authHeader).get? 1
    match jwtSecret with
    | none => AuthOutcome.threw "Token secret not found/defined"
    | some secret =>
      match verify tokenReceived secret with
      | none => AuthOutcome.responded 401 "Not authorised - Token is invalid"
      | some payload =>
        match payload.token with
        | none => AuthOutcome.responded 401 "Not authorised - Token is invalid"
        | some t =>
          if t.email.getD "" = "" ∨ t.role.getD "" = "" ∨ t.uid.getD "" = "" then
            AuthOutcome.responded 401 "Not authorised - Token is invalid"
          else
            AuthOutcome.nextWith ⟨t.uid.getD "", t.email.getD "", t.role.getD ""⟩

/-- Decisions produced by a run of in-window checks on a single key whose
window currently holds count `c`: the k-th decision is reject exactly when
the post-increment count c + k exceeds the maximum. -/
def liveDecisions (maxHits : Nat) : Nat → Nat → List Decision
  | _, 0 => []
  | c, n + 1 =>
    (if maxHits < c + 1 then Decision.reject else Decision.allow)
      :: liveDecisions maxHits (c + 1) n

/-- Number of Admit decisions in a decision list. -/
def allowCount : List Decision → Nat
  | [] => 0
  | Decision.allow :: rest => allowCount rest + 1
  | Decision.reject :: rest => allowCount rest

/-! ### Helper lemmas about the store and `check` -/

theorem setWindow_eq (s : Store) (key : String) (w : RateWindow) :
    setWindow s key w key = some w := by
  simp [setWindow]

theorem setWindow_ne (s : Store) (key : String) (w : RateWindow) (k : String)
    (h : k ≠ key) : setWindow s key w k = s k := by
  simp [setWindow, h]

theorem setWindow_same (s : Store) (key : String) (w : RateWindow)
    (h : s key = some w) : setWindow s key w = s := by
  funext k
  by_cases hk : k = key
  · subst hk; simp [setWindow, h]
  · simp [setWindow, hk]

theorem setWindow_twice (s : Store) (key : String) (w w' : RateWindow) :
    setWindow (setWindow s key w) key w' = setWindow s key w' := by
  funext k
  by_cases hk : k = key <;> simp [setWindow, hk]

theorem check_none (p : WindowPolicy) (now : Nat) (key : String) (s : Store)
    (h : s key = none) :
    check p now key s = (Decision.allow, setWindow s key ⟨1, now⟩) := by
  unfold check
  rw [h]

theorem check_expired (p : WindowPolicy) (now : Nat) (key : String) (s : Store)
    (w : RateWindow) (h : s key = some w)
    (hexp : w.windowStart + p.windowMs ≤ now) :
    check p now key s = (Decision.allow, setWindow s key ⟨1, now⟩) := by
  unfold check
  rw [h]
  simp [hexp]

theorem check_live (p : WindowPolicy) (now : Nat) (key : String) (s : Store)
    (w : RateWindow) (h : s key = some w)
    (hlive : now < w.windowStart + p.windowMs) :
    check p now key s =
      ((if p.max < w.count + 1 then Decision.reject else Decision.allow),
        setWindow s key ⟨w.count + 1, w.windowStart⟩) := by
  unfold check
  rw [h]
  simp [Nat.not_le.mpr hlive]

theorem check_snd_other (p : WindowPolicy) (now : Nat) (key : String)
    (s : Store) (k : String) (h : k ≠ key) :
    (check p now key s).2 k = s k := by
  unfold check
  cases hs : s key with
  | none => simp [setWindow, h]
  | some w =>
    by_cases he : w.windowStart + p.windowMs ≤ now <;> simp [he, setWindow, h]

theorem check_fst_congr (p : WindowPolicy) (now : Nat) (key : String)
    (s₁ s₂ : Store) (h : s₁ key = s₂ key) :
    (check p now key s₁).1 = (check p now key s₂).1 := by
  unfold check
  rw [h]
  cases s₂ key with
  | none => rfl
  | some w =>
    by_cases he : w.windowStart + p.windowMs ≤ now <;> simp [he]

theorem runChecks_snd_other (p : WindowPolicy) (k : String) :
    ∀ (traffic : List (String × Nat)) (s : Store),
      (∀ x ∈ traffic, x.1 ≠ k) →
      (runChecks p s traffic).2 k = s k
  | [], _, _ => rfl
  | (key, t) :: rest, s, h => by
    have h1 : key ≠ k := h (key, t) (by simp)
    have ih := runChecks_snd_other p k rest ((check p t key s).2)
      (fun x hx => h x (by simp [hx]))
    simp only [runChecks]
    rw [ih, check_snd_other p t key s k (Ne.symm h1)]

theorem runChecks_live (p : WindowPolicy) (key : String) (start : Nat) :
    ∀ (ts : List Nat) (c : Nat) (s : Store),
      s key = some ⟨c, start⟩ →
      (∀ t ∈ ts, t < start + p.windowMs) →
      runChecks p s (ts.map (fun t => (key, t)))
        = (liveDecisions p.max c ts.length, setWindow s key ⟨c + ts.length, start⟩)
  | [], c, s, hs, _ => by
    simp [runChecks, liveDecisions, setWindow_same s key _ hs]
  | t :: ts, c, s, hs, hw => by
    have hnt : t < start + p.windowMs := hw t (by simp)
    have hstep := check_live p t key s ⟨c, start⟩ hs (by simpa using hnt)
    have hs' : (setWindow s key ⟨c + 1, start⟩) key = some ⟨c + 1, start⟩ :=
      setWindow_eq s key ⟨c + 1, start⟩
    have ih := runChecks_live p key start ts (c + 1) (setWindow s key ⟨c + 1, start⟩)
      hs' (fun x hx => hw x (by simp [hx]))
    simp only [List.map_cons, runChecks, hstep, ih, List.length_cons, liveDecisions]
    rw [setWindow_twice]
    have hc : c + 1 + ts.length = c + (ts.length + 1) := by omega
    rw [hc]

theorem allowCount_cons_allow (rest : List Decision) :
    allowCount (Decision.allow :: rest) = allowCount rest + 1 := rfl

theorem allowCount_liveDecisions (m : Nat) :
    ∀ (n c : Nat), allowCount (liveDecisions m c n) ≤ m - c
  | 0, _ => by simp [liveDecisions, allowCount]
  | n + 1, c => by
    have ih := allowCount_liveDecisions m n (c + 1)
    by_cases hm : m < c + 1
    · simp only [liveDecisions, if_pos hm, allowCount]
      omega
    · simp only [liveDecisions, if_neg hm, allowCount]
      omega

/-! ### Claim theorems about authenticateToken -/

/-- C1: for every request whose authorization header is absent,
authenticateToken sends a 401 response ("Not authorised - Token not found")
but does not halt: it falls through to `authHeader.split(" ")[1]` on an
undefined value and throws an uncaught TypeError, i.e. it does attempt token
parsing, contrary to the claim's fail-fast behaviour (the downstream handler
and the identity-keyed rate limiter are indeed never invoked). -/
theorem authenticateToken_missing_header_sends_401_then_faults
    (verify : Option String → String → Option DecodedPayload)
    (jwtSecret : Option String) :
    authenticateToken verify jwtSecret ⟨none⟩
      = AuthOutcome.respondedThenThrew 401 "Not authorised - Token not found" := rfl

/-- C6: with no JWT_SECRET configured and the authorization header present,
authenticateToken raises the uncaught configuration fault "Token secret not
found/defined", which is not a 4xx response; however this configuration fault
is NOT the only uncaught fault the code can raise: the missing-header path
also throws an uncaught TypeError after responding 401 (third conjunct),
contradicting the claim's "only kind" clause. -/
theorem secret_missing_fault_not_unique
    (verify : Option String → String → Option DecodedPayload) (h : String) :
    authenticateToken verify none ⟨some h⟩
        = AuthOutcome.threw "Token secret not found/defined"
    ∧ respStatus (authenticateToken verify none ⟨some h⟩) = none
    ∧ authenticateToken verify (some "s") ⟨none⟩
        = AuthOutcome.respondedThenThrew 401 "Not authorised - Token not found" :=
  ⟨rfl, rfl, rfl⟩

/-- C4 counterexample: a cryptographically valid token whose nested payload
lacks the email claim is answered with status 401, not 400 as the claim
states. -/
theorem missing_claims_gets_401_not_400 :
    respStatus (authenticateToken
        (fun tok _ => if tok = some "tkn"
          then some ⟨some ⟨some "u1", none, some "staff"⟩⟩ else none)
        (some "s") ⟨some "Bearer tkn"⟩)
      = some 401
    ∧ some (401 : Nat) ≠ some (400 : Nat) := by
  exact ⟨rfl, by decide⟩

/-- C4 amended: for every token that verifies cryptographically but whose
decoded payload lacks the nested claims object, or lacks at least one of uid,
email, role, authenticateToken responds 401 "Not authorised - Token is
invalid" (the same response as an invalid token; the authentication boundary
never produces 400). -/
theorem missing_claims_responds_401
    (verify : Option String → String → Option DecodedPayload)
    (secret h : String) (req : AuthRequest) (payload : DecodedPayload)
    (hh : req.authorization = some h)
    (hv : verify ((splitOnSpace h).get? 1) secret = some payload) :
    (payload.token = none →
      authenticateToken verify (some secret) req
        = AuthOutcome.responded 401 "Not authorised - Token is invalid")
    ∧ (∀ t : TokenClaims, payload.token = some t →
        (t.uid = none ∨ t.email = none ∨ t.role = none) →
        authenticateToken verify (some secret) req
          = AuthOutcome.responded 401 "Not authorised - Token is invalid") := by
  constructor
  · intro ht
    unfold authenticateToken
    rw [hh]
    simp only [hv, ht]
  · intro t ht hmiss
    unfold authenticateToken
    rw [hh]
    simp only [hv, ht]
    rcases hmiss with h1 | h1 | h1 <;> simp [h1]

/-- C4 witness: concrete run of the amended theorem — a verified token whose
payload is missing the email claim is answered 401. -/
theorem missing_claims_responds_401_witness :
    authenticateToken
        (fun tok _ => if tok = some "tkn"
          then some ⟨some ⟨some "u1", none, some "staff"⟩⟩ else none)
        (some "s") ⟨some "Bearer tkn"⟩
      = AuthOutcome.responded 401 "Not authorised - Token is invalid" :=
  (missing_claims_responds_401 _ "s" "Bearer tkn" _
      ⟨some ⟨some "u1", none, some "staff"⟩⟩ rfl (by rfl)).2
    ⟨some "u1", none, some "staff"⟩ rfl (Or.inr (Or.inl rfl))

/-- C10 counterexample: a verified token whose claims uid, email, role are
all present (email is the empty string, which is still a present claim) is
rejected with 401 instead of having an identity attached, because the code's
truthiness test treats the empty string as a missing claim. -/
theorem empty_claim_present_but_rejected :
    (TokenClaims.mk (some "u1") (some "") (some "staff")).uid.isSome = true
    ∧ (TokenClaims.mk (some "u1") (some "") (some "staff")).email.isSome = true
    ∧ (TokenClaims.mk (some "u1") (some "") (some "staff")).role.isSome = true
    ∧ authenticateToken
        (fun tok _ => if tok = some "tkn"
          then some ⟨some ⟨some "u1", some "", some "staff"⟩⟩ else none)
        (some "s") ⟨some "Bearer tkn"⟩
      = AuthOutcome.responded 401 "Not authorised - Token is invalid" :=
  ⟨rfl, rfl, rfl, by rfl⟩

/-- C10 amended: for every request carrying a validly-signed token whose
decoded payload provides non-empty claims uid, email and role in the nested
claims object, authenticateToken attaches the identity {uid, email, role}
(the spec's subjectId is the uid field) and passes control to the next
stage. -/
theorem valid_claims_attach_identity
    (verify : Option String → String → Option DecodedPayload)
    (secret h u e r : String) (req : AuthRequest) (payload : DecodedPayload)
    (hh : req.authorization = some h)
    (hv : verify ((splitOnSpace h).get? 1) secret = some payload)
    (ht : payload.token = some ⟨some u, some e, some r⟩)
    (hu : u ≠ "") (he : e ≠ "") (hr : r ≠ "") :
    authenticateToken verify (some secret) req = AuthOutcome.nextWith ⟨u, e, r⟩ := by
  unfold authenticateToken
  rw [hh]
  simp only [hv, ht]
  simp [hu, he, hr]

/-- C10 witness: the spec's end-to-end scenario — claims uid "u1", email
"a@b.com", role "staff" produce the identity {"u1", "a@b.com", "staff"} and
the pipeline proceeds. -/
theorem valid_claims_attach_identity_witness :
    authenticateToken
        (fun tok _ => if tok = some "tkn"
          then some ⟨some ⟨some "u1", some "a@b.com", some "staff"⟩⟩ else none)
        (some "s") ⟨some "Bearer tkn"⟩
      = AuthOutcome.nextWith ⟨"u1", "a@b.com", "staff"⟩ :=
  valid_claims_attach_identity _ "s" "Bearer tkn" "u1" "a@b.com" "staff" _ _
    rfl (by rfl) rfl (by decide) (by decide) (by decide)

/-- C2: 21 requests with the same signedInUser email within one window are
ALL admitted by the deployed jwtRateLimitMiddleware, because line 38 builds a
brand-new rateLimit instance (fresh counter store) for every request (first
conjunct); the configured policy itself (ceiling 20) would admit requests
1..20 and reject the 21st if one limiter instance persisted across the
requests (second conjunct), which is what the claim and the spec describe. -/
theorem jwt_gate_admits_all_21 :
    jwtRateLimitMiddlewareRun
        (List.replicate 21 (⟨some "a@b.com", 0⟩ : JwtGateRequest))
      = List.replicate 21 GateOutcome.next
    ∧ (runChecks jwtRateLimiterPolicy emptyStore
        (List.replicate 21 ("a@b.com", 0))).1
      = List.replicate 20 Decision.allow ++ [Decision.reject] := by
  constructor <;> decide

/-! ### Claim theorems about the rate limiters -/

/-- C3: every invocation of jwtRateLimitMiddleware that carries a
signedInUser email applies a brand-new limiter over the freshly initialised
(empty) counter store, so the outcome of an invocation is independent of all
previous invocations — appending the same request to any two histories yields
the same final outcome, and that outcome is exactly the fresh-store check of
the configured identity policy (third conjunct). -/
theorem jwt_gate_history_independent
    (hist other : List JwtGateRequest) (r : JwtGateRequest) (e : String)
    (he : r.signedInUserEmail = some e) :
    jwtRateLimitMiddlewareRun (hist ++ [r])
      = jwtRateLimitMiddlewareRun hist ++ [jwtRateLimitMiddlewareStep r]
    ∧ (jwtRateLimitMiddlewareRun (hist ++ [r])).getLast?
      = (jwtRateLimitMiddlewareRun (other ++ [r])).getLast?
    ∧ jwtRateLimitMiddlewareStep r
      = (match (check jwtRateLimiterPolicy r.now e emptyStore).1 with
         | Decision.allow => GateOutcome.next
         | Decision.reject => GateOutcome.responded 429 jwtRateLimiterMessage) := by
  refine ⟨?_, ?_, ?_⟩
  · simp [jwtRateLimitMiddlewareRun]
  · simp [jwtRateLimitMiddlewareRun, List.getLast?_concat]
  · unfold jwtRateLimitMiddlewareStep
    rw [he]

/-- C3 witness: the run over a one-request history followed by the request
equals the history's outcomes followed by the request's own history-free
outcome. -/
theorem jwt_gate_history_independent_witness :
    jwtRateLimitMiddlewareRun
        ([⟨some "a", 0⟩] ++ [(⟨some "a", 0⟩ : JwtGateRequest)])
      = jwtRateLimitMiddlewareRun [⟨some "a", 0⟩]
        ++ [jwtRateLimitMiddlewareStep ⟨some "a", 0⟩] :=
  (jwt_gate_history_independent [⟨some "a", 0⟩] [] ⟨some "a", 0⟩ "a" rfl).1

/-- C5: characterisation of RateLimiterRegistry.check — a missing or expired
window is replaced by a new window with count 1 and the request is admitted;
a live window has its count incremented (the stored count reflects the
attempted request even on rejection), the decision is Reject exactly when the
post-increment count exceeds the policy maximum, and Admit otherwise. -/
theorem check_characterisation (p : WindowPolicy) (now : Nat) (key : String)
    (s : Store) :
    (s key = none →
      check p now key s = (Decision.allow, setWindow s key ⟨1, now⟩))
    ∧ (∀ w : RateWindow, s key = some w → w.windowStart + p.windowMs ≤ now →
        check p now key s = (Decision.allow, setWindow s key ⟨1, now⟩))
    ∧ (∀ w : RateWindow, s key = some w → now < w.windowStart + p.windowMs →
        (check p now key s).2 key = some ⟨w.count + 1, w.windowStart⟩
        ∧ ((check p now key s).1 = Decision.reject ↔ p.max < w.count + 1)
        ∧ ((check p now key s).1 = Decision.allow ↔ w.count + 1 ≤ p.max)) := by
  refine ⟨fun h => check_none p now key s h,
    fun w hw hexp => check_expired p now key s w hw hexp,
    fun w hw hlive => ?_⟩
  rw [check_live p now key s w hw hlive]
  refine ⟨setWindow_eq s key _, ?_, ?_⟩
  · by_cases hm : p.max < w.count + 1 <;> simp [hm]
  · by_cases hm : p.max < w.count + 1
    · simp [hm]
    · simp [hm]
      omega

/-- C5 witness: a check on a key with no window admits and opens a window
with count 1. -/
theorem check_characterisation_witness :
    check loginLimiterPolicy 5 "k" emptyStore
      = (Decision.allow, setWindow emptyStore "k" ⟨1, 5⟩) :=
  (check_characterisation loginLimiterPolicy 5 "k" emptyStore).1 rfl

/-- C7: under the login-route policy (ceiling 100, window 15 minutes), 101
requests from one source address within one window are decided as 100
admissions followed by a rejection, and the rejection is answered 429 with
the message "Too many requests - try again later". -/
theorem login_route_101st_rejected (addr : String) (t1 : Nat) (ts : List Nat)
    (hlen : ts.length = 100)
    (hw : ∀ t ∈ ts, t < t1 + loginLimiterPolicy.windowMs) :
    (runChecks loginLimiterPolicy emptyStore
        ((addr, t1) :: ts.map (fun t => (addr, t)))).1
      = List.replicate 100 Decision.allow ++ [Decision.reject]
    ∧ limiterOutcome loginLimiterMessage Decision.reject
      = some (429, "Too many requests - try again later") := by
  constructor
  · have hfirst := check_none loginLimiterPolicy t1 addr emptyStore rfl
    have hlive := runChecks_live loginLimiterPolicy addr t1 ts 1
      (setWindow emptyStore addr ⟨1, t1⟩) (setWindow_eq _ _ _) hw
    simp only [runChecks, hfirst, hlive, hlen]
    decide
  · rfl

/-- C7 witness: the concrete scenario with all 101 requests at time 0 from
one address. -/
theorem login_route_101st_rejected_witness :
    (runChecks loginLimiterPolicy emptyStore
        (("a", 0) :: (List.replicate 100 (0 : Nat)).map (fun t => ("a", t)))).1
      = List.replicate 100 Decision.allow ++ [Decision.reject]
    ∧ limiterOutcome loginLimiterMessage Decision.reject
      = some (429, "Too many requests - try again later") :=
  login_route_101st_rejected "a" 0 (List.replicate 100 0) (by decide)
    (by decide)

/-- C8: traffic on one key never affects another key — any sequence of checks
keyed by A leaves B's window untouched and leaves the admission decision of a
subsequent check on B unchanged. -/
theorem rate_limit_keys_independent (p : WindowPolicy) (keyA keyB : String)
    (hne : keyA ≠ keyB) (ts : List Nat) (s : Store) (now : Nat) :
    (runChecks p s (ts.map (fun t => (keyA, t)))).2 keyB = s keyB
    ∧ (check p now keyB (runChecks p s (ts.map (fun t => (keyA, t)))).2).1
      = (check p now keyB s).1 := by
  have hpres : (runChecks p s (ts.map (fun t => (keyA, t)))).2 keyB = s keyB := by
    apply runChecks_snd_other
    intro x hx
    rcases List.mem_map.1 hx with ⟨t, _, rfl⟩
    exact hne
  exact ⟨hpres, check_fst_congr p now keyB _ s hpres⟩

/-- C8 witness: three checks on key "a" leave key "b" and its next admission
decision unchanged. -/
theorem rate_limit_keys_independent_witness :
    (runChecks loginLimiterPolicy emptyStore
        ([0, 0, 0].map (fun t => ("a", t)))).2 "b" = emptyStore "b"
    ∧ (check loginLimiterPolicy 0 "b" (runChecks loginLimiterPolicy emptyStore
        ([0, 0, 0].map (fun t => ("a", t)))).2).1
      = (check loginLimiterPolicy 0 "b" emptyStore).1 :=
  rate_limit_keys_independent loginLimiterPolicy "a" "b" (by decide) [0, 0, 0]
    emptyStore 0

/-- C9 counterexample: after 101 in-window checks on one key under the
login-route policy (ceiling 100), the stored count of the RateWindow is 101,
which exceeds the configured ceiling — the stored count also counts rejected
attempts. -/
theorem stored_count_exceeds_ceiling :
    (runChecks loginLimiterPolicy emptyStore
        (List.replicate 101 ("a", 0))).2 "a" = some ⟨101, 0⟩
    ∧ loginLimiterPolicy.max < 101 := by
  constructor <;> decide

/-- C9 amended: within one window the number of ADMITTED requests for a key
never exceeds the policy ceiling (for any policy with ceiling at least 1);
the stored count, by contrast, also reflects rejected attempts and may exceed
the ceiling. -/
theorem admitted_count_bounded (p : WindowPolicy) (key : String) (t1 : Nat)
    (ts : List Nat) (s : Store) (hmax : 1 ≤ p.max) (hs : s key = none)
    (hw : ∀ t ∈ ts, t < t1 + p.windowMs) :
    allowCount (runChecks p s ((key, t1) :: ts.map (fun t => (key, t)))).1
      ≤ p.max := by
  have hfirst := check_none p t1 key s hs
  have hlive := runChecks_live p key t1 ts 1 (setWindow s key ⟨1, t1⟩)
    (setWindow_eq _ _ _) hw
  simp only [runChecks, hfirst, hlive]
  rw [allowCount_cons_allow]
  have hb := allowCount_liveDecisions p.max ts.length 1
  omega

/-- C9 witness: 151 in-window requests on one key admit at most 100 under the
login-route policy. -/
theorem admitted_count_bounded_witness :
    allowCount (runChecks loginLimiterPolicy emptyStore
        (("a", 0) :: (List.replicate 150 (0 : Nat)).map (fun t => ("a", t)))).1
      ≤ loginLimiterPolicy.max :=
  admitted_count_bounded loginLimiterPolicy "a" 0 (List.replicate 150 0)
    emptyStore (by decide) rfl (by decide)

end LRS
